import Mathlib

/-!
# RepoVista registry client — verification of the resilience layer

Shallow embedding, in Lean 4, of the pure logic of
`backend/services/registry.py` (class `RegistryClient`): the circuit
breaker, the retry loop of `_make_request`, retry-delay computation,
bearer-token expiry, the in-memory response cache, and manifest
validation/metadata extraction.

Conventions used throughout:
* Python `time.time()` instants and float durations are modelled as `ℚ`
  (exact arithmetic; the claims under study involve only comparisons and
  `+`/`-`/`*`, never float rounding).
* Python `int` is modelled as `Int` (arbitrary precision in both).
* A Python value that may be `None` is modelled as an `Option`.
* Python truthiness tests (`if not self._auth_token`, `if expires_in`)
  are translated explicitly: `None`, `0` and `""` are falsy.
* Mutation of `self` is modelled by explicit state passing: each method
  becomes a function from the relevant state (plus the current time) to
  the new state and/or a returned value.
-/

namespace RepoVista

/-! ## Circuit breaker (`registry.py`, lines 189-299, 1715-1721)

The source stores the state as one of the string tags `"CLOSED"`,
`"OPEN"`, `"HALF_OPEN"`; we model the tag as an enumeration. -/

/-- The three circuit-breaker modes (`self._circuit_breaker_state`). -/
inductive CBMode where
         | closed
         | opened
         | halfOpen
deriving DecidableEq, Repr

/-- Circuit-breaker parameters set in `RegistryClient.__init__` (defaults
`threshold = 5`, `timeout = 60`, `half_open_max_calls = 3`) and writable
via `configure_circuit_breaker`. -/
structure CBConfig where
  threshold : Int
  timeout : ℚ
  half_open_max_calls : Int
deriving DecidableEq, Repr

/-- The defaults from `RegistryClient.__init__`. -/
def defaultCBConfig : CBConfig := { threshold := 5, timeout := 60, half_open_max_calls := 3 }

/-- The mutable circuit-breaker fields of `RegistryClient`. -/
structure CBState where
  failure_count : Int
  last_failure_time : ℚ
  last_success_time : ℚ
  half_open_calls : Int
  mode : CBMode
deriving DecidableEq, Repr

/-- Initial circuit-breaker state from `RegistryClient.__init__`
(`_failure_count = 0`, `_last_failure_time = 0`,
`_last_success_time = time.time()`, `_circuit_breaker_half_open_calls = 0`,
state `"CLOSED"`); `t0` is the construction instant. -/
def initialCBState (t0 : ℚ) : CBState :=
  { failure_count := 0, last_failure_time := 0, last_success_time := t0
    half_open_calls := 0, mode := .closed }

/-- `RegistryClient._get_circuit_breaker_state`: update the state if
needed and return the (new) mode together with the new state. -/
def getCircuitBreakerState (cfg : CBConfig) (st : CBState) (now : ℚ) : CBMode × CBState :=
  match st.mode with
  | .closed =>
      if st.failure_count ≥ cfg.threshold then
        let st' := { st with mode := .opened, last_failure_time := now }
        (.opened, st')
      else (.closed, st)
  | .opened =>
      if now - st.last_failure_time > cfg.timeout then
        let st' := { st with mode := .halfOpen, half_open_calls := 0 }
        (.halfOpen, st')
      else (.opened, st)
  | .halfOpen => (.halfOpen, st)

/-- `RegistryClient._record_failure(is_retriable)`. The source first sets
`_last_failure_time`, then branches on the current mode, then — only for
non-retriable failures and only if the (post-branch) mode is still
`"CLOSED"` — replaces `_failure_count` with `max(0, _failure_count - 1)`. -/
def recordFailure (cfg : CBConfig) (st : CBState) (now : ℚ) (is_retriable : Bool) : CBState :=
  let st1 := { st with last_failure_time := now }
  let st2 :=
    match st1.mode with
    | .closed => { st1 with failure_count := st1.failure_count + 1 }
    | .halfOpen =>
        { st1 with mode := .opened, failure_count := cfg.threshold, half_open_calls := 0 }
    | .opened => st1
  if is_retriable then st2
  else if st2.mode = .closed then { st2 with failure_count := max 0 (st2.failure_count - 1) }
  else st2

/-- `RegistryClient._record_success`. -/
def recordSuccess (cfg : CBConfig) (st : CBState) (now : ℚ) : CBState :=
  let st1 := { st with last_success_time := now }
  match st1.mode with
  | .closed => { st1 with failure_count := 0 }
  | .halfOpen =>
      let st2 := { st1 with half_open_calls := st1.half_open_calls + 1 }
      if st2.half_open_calls ≥ cfg.half_open_max_calls then
        { st2 with mode := .closed, failure_count := 0, half_open_calls := 0 }
      else st2
  | .opened => st1

/-- `RegistryClient.reset_circuit_breaker`. -/
def resetCircuitBreaker (st : CBState) (now : ℚ) : CBState :=
  { st with mode := .closed, failure_count := 0, half_open_calls := 0
            last_failure_time := 0, last_success_time := now }

/-- Record `k` consecutive retriable failures (all at instant `now`). -/
def recordFailures (cfg : CBConfig) (st : CBState) (now : ℚ) : Nat → CBState
  | 0 => st
  | k + 1 => recordFailure cfg (recordFailures cfg st now k) now true

/-- Record `k` consecutive successes (all at instant `now`). -/
def recordSuccesses (cfg : CBConfig) (st : CBState) (now : ℚ) : Nat → CBState
  | 0 => st
  | k + 1 => recordSuccess cfg (recordSuccesses cfg st now k) now

/-- One circuit-breaker interaction, for stating state-machine invariants:
a recorded failure, a recorded success, a state query
(`_get_circuit_breaker_state`, which can mutate the state), or a manual
`reset_circuit_breaker`. -/
inductive CBOp where
         | fail (now : ℚ) (is_retriable : Bool)
         | succeed (now : ℚ)
         | query (now : ℚ)
         | reset (now : ℚ)
deriving Repr

/-- Apply one interaction to the circuit-breaker state. -/
def applyCBOp (cfg : CBConfig) (st : CBState) : CBOp → CBState
  | .fail now r => recordFailure cfg st now r
  | .succeed now => recordSuccess cfg st now
  | .query now => (getCircuitBreakerState cfg st now).2
  | .reset now => resetCircuitBreaker st now

/-- Apply a sequence of interactions, oldest first. -/
def applyCBOps (cfg : CBConfig) (st : CBState) : List CBOp → CBState
  | [] => st
  | op :: ops => applyCBOps cfg (applyCBOp cfg st op) ops

/-! ## Error taxonomy (`registry.py`, lines 25-116 and 585-709)

`RegistryException` and its subclasses are modelled by a class tag plus
the fields the resilience logic reads: `status_code` and
`details["retry_after"]`.  The `details` dict also carries parsed
registry error envelopes, which no claim reads; only `retry_after` is
modelled.  `retry_after` holds the `Retry-After` header value when it is
present and parseable as a float; a present but unparseable header value
behaves as `none` in `_get_retry_delay` (both `float(...)` conversions
are wrapped in `try/except: pass`). -/

/-- The subclass of `RegistryException` an error belongs to. -/
inductive ErrCls where
         | base
         | auth
         | notFound
         | connection
         | timeoutErr
         | permission
         | rateLimit
         | server
         | validation
         | unavailable
deriving DecidableEq, Repr

/-- A raised `RegistryException`, reduced to the fields the retry and
circuit-breaker logic inspects. -/
structure RegError where
  cls : ErrCls
  status_code : Option Int
  retry_after : Option ℚ
  msg : String
deriving DecidableEq, Repr

/-- `RegistryClient._handle_error_response`: map an HTTP status ≥ 400
(with the error code and combined message parsed from the registry error
envelope, when any) to the raised typed error.  `retryAfter` is the
`Retry-After` header; it is stored into `details` only in the 429 and
503 branches.  The human-readable ` (retry after N seconds)` suffix and
the `reason_phrase` suffix of the final branch format header/response
text into the message and are not modelled. -/
def errorForStatus (status : Int) (errorCode : Option String)
    (detailedMessage : Option String) (retryAfter : Option ℚ) : RegError :=
  if status = 400 then
    ⟨.validation, some status, none,
      detailedMessage.getD "Bad request - invalid parameters or malformed request"⟩
  else if status = 401 then
    ⟨.auth, some status, none,
      detailedMessage.getD "Authentication required - invalid credentials or expired token"⟩
  else if status = 403 then
    ⟨.permission, some status, none,
      detailedMessage.getD "Permission denied - insufficient privileges to access this resource"⟩
  else if status = 404 then
    let m :=
      match errorCode with
      | some "NAME_UNKNOWN" => detailedMessage.getD "Repository not found"
      | some "MANIFEST_UNKNOWN" => detailedMessage.getD "Image manifest not found"
      | some "BLOB_UNKNOWN" => detailedMessage.getD "Image layer or blob not found"
      | _ => detailedMessage.getD "Resource not found"
    ⟨.notFound, some status, none, m⟩
  else if status = 405 then
    ⟨.base, some status, none,
      detailedMessage.getD "Method not allowed - the requested operation is not supported"⟩
  else if status = 409 then
    ⟨.base, some status, none,
      detailedMessage.getD "Conflict - resource already exists or concurrent modification"⟩
  else if status = 416 then
    ⟨.base, some status, none,
      detailedMessage.getD "Range not satisfiable - invalid byte range requested"⟩
  else if status = 429 then
    ⟨.rateLimit, some status, retryAfter,
      detailedMessage.getD "Rate limit exceeded - too many requests"⟩
  else if status = 500 then
    ⟨.server, some status, none,
      detailedMessage.getD "Internal server error - registry encountered an unexpected condition"⟩
  else if status = 502 then
    ⟨.server, some status, none,
      detailedMessage.getD "Bad gateway - registry received invalid response from upstream server"⟩
  else if status = 503 then
    ⟨.unavailable, some status, retryAfter,
      detailedMessage.getD "Service unavailable - registry is temporarily overloaded or down for maintenance"⟩
  else if status = 504 then
    ⟨.timeoutErr, some status, none,
      detailedMessage.getD "Gateway timeout - registry did not receive timely response from upstream server"⟩
  else if status ≥ 500 then
    ⟨.server, some status, none, detailedMessage.getD "Server error - registry returned server status"⟩
  else
    ⟨.base, some status, none, detailedMessage.getD "Client error"⟩

/-- `RegistryTimeoutError(f"Request timeout: {e}")` as built by the retry
loop when `httpx.TimeoutException` is caught (`RegistryTimeoutError`
defaults `status_code` to 408). -/
def wrapTimeoutError (m : String) : RegError := ⟨.timeoutErr, some 408, none, m⟩

/-- `RegistryConnectionError(f"Connection error: {e}")` as built by the
retry loop when `httpx.RequestError` is caught (no default status). -/
def wrapConnectionError (m : String) : RegError := ⟨.connection, none, none, m⟩

/-- `RegistryException(f"Unexpected error: {e}")` as built by the retry
loop when any other exception is caught. -/
def wrapUnexpectedError (m : String) : RegError := ⟨.base, none, none, m⟩

/-- `RegistryException("All retry attempts failed")` raised when the loop
ends with no stored exception. -/
def allRetriesFailedError : RegError := ⟨.base, none, none, "All retry attempts failed"⟩

/-- `RegistryAuthError("Invalid authentication challenge")` from
`_handle_auth_challenge` (no default status). -/
def invalidChallengeError : RegError := ⟨.auth, none, none, "Invalid authentication challenge"⟩

/-- `RegistryAuthError("Authentication realm not provided")` from
`_handle_auth_challenge`. -/
def realmMissingError : RegError := ⟨.auth, none, none, "Authentication realm not provided"⟩

/-- An error that can reach `_get_retry_delay` as the retry trigger: the
retry loop passes it `last_exception`, which is either a typed error
raised by `_handle_error_response` or one of the loop's three wrappers
(auth-challenge errors are non-retriable and are re-raised before any
delay is computed). -/
def TriggeringError (e : RegError) : Prop :=
  (∃ s c m r, e = errorForStatus s c m r) ∨ (∃ m, e = wrapTimeoutError m) ∨
    (∃ m, e = wrapConnectionError m) ∨ (∃ m, e = wrapUnexpectedError m)

/-! ## Retry policy (`registry.py`, lines 199-202, 456-510, 797-867) -/

/-- Retry parameters from `RegistryClient.__init__` /
`configure_retry_policy`.  `max_retries` is a `Nat`: the loop runs
`range(max_retries + 1)` iterations, and a negative setting (never used)
would simply run none. -/
structure RetryConfig where
  retry_delay : ℚ
  max_retry_delay : ℚ
  max_retries : Nat
  retry_on_status_codes : List Int
deriving DecidableEq, Repr

/-- Defaults: `retry_delay = 1.0`, `_max_retry_delay = 60.0`,
`max_retries = 3`, `_retry_on_status_codes = {408, 429, 500, 502, 503, 504}`. -/
def defaultRetryConfig : RetryConfig :=
  { retry_delay := 1, max_retry_delay := 60, max_retries := 3
    retry_on_status_codes := [408, 429, 500, 502, 503, 504] }

/-- `RegistryClient._is_retriable_error`.  Within `_make_request` the
argument is always an already-wrapped `RegistryException`, so the final
`_should_retry_exception` branch (an `isinstance` test against raw httpx
exception types) is constantly false and is not modelled.  The
`exception.status_code and ...` truthiness guard makes a status of `0`
fall through to `False`. -/
def isRetriableError (cfg : RetryConfig) (e : RegError) : Bool :=
  if e.cls = .connection ∨ e.cls = .timeoutErr then true
  else if e.cls = .server ∨ e.cls = .unavailable then true
  else if e.cls = .rateLimit then true
  else
    match e.status_code with
    | some c => if c ≠ 0 ∧ cfg.retry_on_status_codes.contains c then true else false
    | none => false

/-- `RegistryClient._get_retry_delay`.  `rand` models the
`random.random()` draw (a value in `[0, 1)`); `0.25` is exactly `1/4`.
The two `retry_after` branches return before any jitter is added. -/
def getRetryDelay (cfg : RetryConfig) (attempt : Nat) (exc : Option RegError) (rand : ℚ) : ℚ :=
  match exc with
  | some { cls := .rateLimit, retry_after := some ra, .. } => ra
  | some { cls := .unavailable, retry_after := some ra, .. } => ra
  | _ =>
      let delay := cfg.retry_delay * 2 ^ attempt
      let capped := min delay cfg.max_retry_delay
      let jitter := capped * (1 / 4 : ℚ) * rand
      capped + jitter

/-- The pre-jitter exponential-backoff delay `min(base * 2^attempt, max_delay)`. -/
def retryDelayBase (cfg : RetryConfig) (attempt : Nat) : ℚ :=
  min (cfg.retry_delay * 2 ^ attempt) cfg.max_retry_delay

/-- The server-supplied delay `_get_retry_delay` honours, when any: the
error's `retry_after` for rate-limit and service-unavailable errors. -/
def retryAfterUsed : Option RegError → Option ℚ
  | some { cls := .rateLimit, retry_after := some ra, .. } => some ra
  | some { cls := .unavailable, retry_after := some ra, .. } => some ra
  | _ => none

/-! ## The retry loop of `_make_request` (`registry.py`, lines 456-510)

One execution of the loop is driven by an oracle giving, for each
attempt index, what the attempt's `try` block does.  The transport and
response handling being I/O, the oracle abstracts them; everything the
loop itself does (wrapping, retriability tests, `continue`/`break`/
`raise`, the final failure recording) is modelled. -/

/-- What one iteration's `try` block does. `success`: the request returns
with status < 400 (the loop records a success and returns).  `authRetry`:
status 401, `_handle_auth_challenge` succeeded and left a truthy token
(`e401` is the error `_handle_error_response` would raise for that
response, reached when no retry attempt is left).  `httpTimeout` /
`httpNetwork`: the transport raised `httpx.TimeoutException` /
`httpx.RequestError` (with wrap message `m`).  `registryError`: a
`RegistryException` `e` was raised (by `_handle_error_response`, or by a
failing `_handle_auth_challenge`).  `unexpected`: any other exception. -/
inductive AttemptOutcome where
         | success
         | authRetry (e401 : RegError)
         | httpTimeout (m : String)
         | httpNetwork (m : String)
         | registryError (e : RegError)
         | unexpected (m : String)

/-- Outcome of one `_make_request` execution: a returned response, or a
raised error `e` together with the `is_retriable` flag passed to
`_record_failure` — `none` when the execution raised without recording
any circuit-breaker failure. -/
inductive ReqResult where
         | ok
         | raised (e : RegError) (recorded : Option Bool)
deriving DecidableEq, Repr

/-- The code after the `for` loop: record a failure classified by
`last_exception and self._is_retriable_error(last_exception)` (falsy,
hence `False`, when no exception is stored) and raise `last_exception`,
or the generic `RegistryException` when none is stored. -/
def endLoop (cfg : RetryConfig) (last : Option RegError) : ReqResult :=
  match last with
  | some e => .raised e (some (isRetriableError cfg e))
  | none => .raised allRetriesFailedError (some false)

/-- The body of `for attempt in range(self.max_retries + 1)`.  `fuel` is
the number of iterations left (`max_retries + 1 - attempt`); reaching `0`
is the loop running to completion. -/
def runAttemptsGo (cfg : RetryConfig) (oracle : Nat → AttemptOutcome) :
    Nat → Nat → Option RegError → ReqResult
  | 0, _, last => endLoop cfg last
  | fuel + 1, attempt, last =>
    match oracle attempt with
    | .success => .ok
    | .authRetry e401 =>
        -- `if self._auth_token and attempt < self.max_retries: continue`;
        -- otherwise the 401 falls through to `_handle_error_response`,
        -- whose `RegistryAuthError` is re-raised at once (not retriable
        -- for any remaining attempt budget).
        if attempt < cfg.max_retries then runAttemptsGo cfg oracle fuel (attempt + 1) last
        else .raised e401 none
    | .httpTimeout m =>
        let e := wrapTimeoutError m
        if isRetriableError cfg e then runAttemptsGo cfg oracle fuel (attempt + 1) (some e)
        else endLoop cfg (some e)
    | .httpNetwork m =>
        let e := wrapConnectionError m
        if isRetriableError cfg e then runAttemptsGo cfg oracle fuel (attempt + 1) (some e)
        else endLoop cfg (some e)
    | .registryError e =>
        -- `except RegistryException as e: if self._is_retriable_error(e)
        -- and attempt < self.max_retries: last_exception = e else: raise`
        if isRetriableError cfg e ∧ attempt < cfg.max_retries then
          runAttemptsGo cfg oracle fuel (attempt + 1) (some e)
        else .raised e none
    | .unexpected m =>
        let e := wrapUnexpectedError m
        -- `if last_exception and not self._is_retriable_error(...): break`
        if isRetriableError cfg e then runAttemptsGo cfg oracle fuel (attempt + 1) (some e)
        else endLoop cfg (some e)

/-- A full `_make_request` retry-loop execution. -/
def runAttempts (cfg : RetryConfig) (oracle : Nat → AttemptOutcome) : ReqResult :=
  runAttemptsGo cfg oracle (cfg.max_retries + 1) 0 none

/-- The errors an execution encounters, in order: the typed errors raised
in or wrapped by each consumed iteration. -/
def encTraceGo (cfg : RetryConfig) (oracle : Nat → AttemptOutcome) : Nat → Nat → List RegError
  | 0, _ => []
  | fuel + 1, attempt =>
    match oracle attempt with
    | .success => []
    | .authRetry e401 =>
        if attempt < cfg.max_retries then encTraceGo cfg oracle fuel (attempt + 1)
        else [e401]
    | .httpTimeout m =>
        let e := wrapTimeoutError m
        if isRetriableError cfg e then e :: encTraceGo cfg oracle fuel (attempt + 1) else [e]
    | .httpNetwork m =>
        let e := wrapConnectionError m
        if isRetriableError cfg e then e :: encTraceGo cfg oracle fuel (attempt + 1) else [e]
    | .registryError e =>
        if isRetriableError cfg e ∧ attempt < cfg.max_retries then
          e :: encTraceGo cfg oracle fuel (attempt + 1)
        else [e]
    | .unexpected m =>
        let e := wrapUnexpectedError m
        if isRetriableError cfg e then e :: encTraceGo cfg oracle fuel (attempt + 1) else [e]

/-- All errors encountered by a full execution, in order. -/
def encTrace (cfg : RetryConfig) (oracle : Nat → AttemptOutcome) : List RegError :=
  encTraceGo cfg oracle (cfg.max_retries + 1) 0

/-- The error a finished execution raised, if it raised one. -/
def raisedOf : ReqResult → Option RegError
  | .ok => none
  | .raised e _ => some e

/-- The `is_retriable` classification recorded against the circuit
breaker by a finished execution, if a failure was recorded at all. -/
def recordedOf : ReqResult → Option Bool
  | .ok => none
  | .raised _ r => r

/-! ## Bearer tokens (`registry.py`, lines 167-170, 541-583, 711-720) -/

/-- `BearerToken` (`schemas.py`): the parsed token-endpoint response.
`issued_at` is never read by the client and is omitted. -/
structure BearerToken where
  token : String
  access_token : Option String
  expires_in : Option Int
deriving DecidableEq, Repr

/-- `bearer_token.access_token or bearer_token.token`: Python `or` takes
the second operand when the first is `None` or the empty string. -/
def effectiveToken (bt : BearerToken) : String :=
  match bt.access_token with
  | some s => if s = "" then bt.token else s
  | none => bt.token

/-- The token-related mutable fields of `RegistryClient`
(`_auth_token`, `_token_expires_at`). -/
structure AuthState where
  auth_token : Option String
  token_expires_at : Option ℚ
deriving DecidableEq, Repr

/-- Both fields start as `None` in `__init__`. -/
def initialAuthState : AuthState := { auth_token := none, token_expires_at := none }

/-- The state update of `_obtain_bearer_token` on a successful token
response parsed as `bt`, performed at instant `now`: store the effective
token, and — only when `expires_in` is truthy (present and nonzero) —
store `now + expires_in - 60` (the one-minute buffer).  A falsy
`expires_in` leaves `_token_expires_at` untouched. -/
def obtainBearerToken (st : AuthState) (bt : BearerToken) (now : ℚ) : AuthState :=
  let st1 := { st with auth_token := some (effectiveToken bt) }
  match bt.expires_in with
  | some e => if e ≠ 0 then { st1 with token_expires_at := some (now + (e : ℚ) - 60) } else st1
  | none => st1

/-- `RegistryClient._is_token_expired`.  `if not self._auth_token` is
true for `None` and for the empty string; `if self._token_expires_at`
is false for `None` and for `0.0`. -/
def isTokenExpired (st : AuthState) (now : ℚ) : Bool :=
  match st.auth_token with
  | none => true
  | some t =>
    if t = "" then true
    else
      match st.token_expires_at with
      | some ea => if ea ≠ 0 then decide (now ≥ ea) else false
      | none => false

/-! ## Authentication-challenge handling (`registry.py`, lines 512-539) -/

/-- `AuthChallenge` (`schemas.py`): `realm` and `service` are required,
`scope` optional.  The `HttpUrl` format validation pydantic applies to
`realm` is not modelled (it is a string here). -/
structure AuthChallenge where
  realm : String
  service : String
  scope : Option String
deriving DecidableEq, Repr

/-- The client state `_handle_auth_challenge` can touch: the token state
plus the stored `_auth_challenge`. -/
structure FullAuthState where
  auth : AuthState
  challenge : Option AuthChallenge
deriving DecidableEq, Repr

/-- Python `str.startswith(pre)`, on the underlying character lists. -/
def pyStartsWith (s pre : String) : Bool :=
  List.isPrefixOf pre.data s.data

/-- Python `str.strip('"')`: drop all leading and trailing `"` characters. -/
def stripQuotes (s : String) : String :=
  String.mk (((s.data.dropWhile (fun c => c = '"')).reverse.dropWhile (fun c => c = '"')).reverse)

/-- Python dict assignment `d[k] = v` on an insertion-ordered dict
modelled as an association list: overwrite in place, or append. -/
def dictSet (d : List (String × String)) (k v : String) : List (String × String) :=
  if d.any (fun e => e.1 = k) then d.map (fun e => if e.1 = k then (k, v) else e)
  else d ++ [(k, v)]

/-- Python `d.get(k)` / `k in d` on the same model. -/
def dictGet (d : List (String × String)) (k : String) : Option String :=
  (d.find? (fun e => e.1 = k)).map (fun e => e.2)

/-- The challenge-parameter parse loop of `_handle_auth_challenge`:
split on `,`; for each piece containing `=`, split once on the first
`=`, strip whitespace from the key, strip whitespace then quotes from
the value. -/
def parseChallengeParams (s : String) : List (String × String) :=
  (s.splitOn ",").foldl
    (fun acc param =>
      match param.splitOn "=" with
      | k :: v :: rest =>
          dictSet acc k.trim (stripQuotes (String.intercalate "=" (v :: rest)).trim)
      | _ => acc)
    []

/-- `AuthChallenge(**challenge_params)`: `none` when the required
`service` field is missing (pydantic raises a `ValidationError`, which
is not a `RegistryException`). -/
def mkAuthChallenge (params : List (String × String)) : Option AuthChallenge :=
  match dictGet params "realm", dictGet params "service" with
  | some r, some sv => some { realm := r, service := sv, scope := dictGet params "scope" }
  | _, _ => none

/-- A stand-in for the non-Registry `pydantic.ValidationError` raised by
a failing `AuthChallenge(**params)` construction. -/
def challengeModelError : RegError := ⟨.base, none, none, "AuthChallenge validation error"⟩

/-- `RegistryClient._handle_auth_challenge`.  `wwwAuthenticate` is the
`WWW-Authenticate` response header (absent or its string value);
`exchange` abstracts `_obtain_bearer_token` (an HTTP call to the realm),
mapping the client state after the challenge is stored to the raised
error (if any) and the state left behind.  The result pairs the raised
error (if any) with the client state visible afterwards, so an early
raise provably leaves the state untouched. -/
def handleAuthChallenge (st : FullAuthState) (wwwAuthenticate : Option String)
    (exchange : FullAuthState → Option RegError × FullAuthState) :
    Option RegError × FullAuthState :=
  match wwwAuthenticate with
  | none => (some invalidChallengeError, st)
  | some h =>
    if ¬ pyStartsWith h "Bearer " then (some invalidChallengeError, st)
    else
      let params := parseChallengeParams (h.drop 7)
      if (dictGet params "realm").isNone then (some realmMissingError, st)
      else
        match mkAuthChallenge params with
        | some ch => exchange { st with challenge := some ch }
        | none => (some challengeModelError, st)

/-! ## Response cache (`registry.py`, lines 178-187, 316-380)

`self._cache` is a Python dict from key to `(value, expires_at)`;
modelled as its item list in insertion order (Python dicts preserve
insertion order, and `sorted` is stable). -/

/-- The cache, as an insertion-ordered item list `(key, value, expires_at)`. -/
abbrev Cache (α : Type) := List (String × α × ℚ)

/-- `RegistryClient._evict_expired_cache_entries` at instant `now`:
drop every entry with `now >= expires_at`. -/
def evictExpiredCacheEntries {α : Type} (now : ℚ) (c : Cache α) : Cache α :=
  c.filter (fun e => ! decide (now ≥ e.2.2))

/-- `sorted(self._cache.items(), key=lambda x: x[1][1])`.  Python's
`sorted` is a stable sort; it is modelled by insertion sort, which is
also stable, hence produces the same list. -/
def sortByExpiry {α : Type} (c : Cache α) : Cache α :=
  List.insertionSort (fun a b => a.2.2 ≤ b.2.2) c

/-- `RegistryClient._evict_oldest_cache_entries(count)`: delete the keys
of the first `count` entries in expiry order.  (`count <= 0` returns at
once, which coincides with deleting zero keys.) -/
def evictOldestCacheEntries {α : Type} (count : Nat) (c : Cache α) : Cache α :=
  let sortedEntries := sortByExpiry c
  let keysToRemove := (sortedEntries.take count).map (fun e => e.1)
  c.filter (fun e => ! keysToRemove.contains e.1)

/-- Python dict assignment `self._cache[key] = (value, expires_at)`:
overwrite in place, or append. -/
def cacheInsert {α : Type} (c : Cache α) (k : String) (v : α) (ea : ℚ) : Cache α :=
  if c.any (fun e => e.1 = k) then c.map (fun e => if e.1 = k then (k, v, ea) else e)
  else c ++ [(k, v, ea)]

/-- `RegistryClient._set_cache` at instant `now` with the given TTL
(after the `ttl is None` defaulting).  `int(self._max_cache_size * 0.1)`
is modelled as `maxSize / 10` (floor division); the two agree at every
value involved in the claims (float `0.1` rounds up, so the truncated
product never falls below the exact floor for these sizes). -/
def setCache {α : Type} (maxSize : Nat) (c : Cache α) (k : String) (v : α)
    (ttl : ℚ) (now : ℚ) : Cache α :=
  let c1 :=
    if c.length ≥ maxSize then
      let c2 := evictExpiredCacheEntries now c
      if c2.length ≥ maxSize then evictOldestCacheEntries (maxSize / 10) c2 else c2
    else c
  cacheInsert c1 k v (now + ttl)

/-- `RegistryClient.clear_cache(pattern)`.  `pattern` carries the match
predicate of the compiled regex (`pattern_re.search`, a key-only test);
`evictions` is `self._cache_stats["evictions"]`.  Returns the new cache,
the new evictions counter, and the function's return value — the Python
function has no `return` statement, so that value is always `None`. -/
def clearCache {α : Type} (c : Cache α) (evictions : Nat)
    (pattern : Option (String → Bool)) : Cache α × Nat × Option Nat :=
  match pattern with
  | none => ([], evictions + c.length, none)
  | some p =>
      let keysToRemove := (c.map (fun e => e.1)).filter p
      (c.filter (fun e => ! keysToRemove.contains e.1), evictions + keysToRemove.length, none)

/-! ## Manifests (`registry.py`, lines 943-1003, 1035-1075, 1336-1368) -/

/-- A JSON value, as far as manifest validation needs one. -/
inductive JVal where
         | str (s : String)
         | num (n : Int)
         | obj (fields : List (String × JVal))
         | arr (elems : List JVal)
         | null

/-- `d.get(k)` on a JSON object. -/
def jGet (d : List (String × JVal)) (k : String) : Option JVal :=
  (d.find? (fun e => e.1 = k)).map (fun e => e.2)

/-- `k in d` on a JSON object. -/
def jHas (d : List (String × JVal)) (k : String) : Bool :=
  (jGet d k).isSome

/-- The `["mediaType", "size", "digest"]` presence loop applied to a
config or layer object. -/
def validBlobFields (c : List (String × JVal)) : Bool :=
  jHas c "mediaType" && jHas c "size" && jHas c "digest"

/-- `RegistryClient._validate_manifest_data`. -/
def validateManifestData (d : List (String × JVal)) : Bool :=
  jHas d "schemaVersion" && jHas d "mediaType" && jHas d "config" && jHas d "layers" &&
    (match jGet d "config" with
     | some (.obj c) => validBlobFields c
     | _ => false) &&
    (match jGet d "layers" with
     | some (.arr ls) =>
         ls.all (fun l => match l with | .obj lo => validBlobFields lo | _ => false)
     | _ => false)

/-- `ManifestConfig` / `ManifestLayer` (`schemas.py`): identical field
sets, merged into one structure. -/
structure ManifestBlob where
  media_type : String
  size : Int
  digest : String
deriving DecidableEq, Repr

/-- `ManifestV2` (`schemas.py`). -/
structure ManifestV2 where
  schema_version : Int
  media_type : String
  config : ManifestBlob
  layers : List ManifestBlob
deriving DecidableEq, Repr

/-- Parsing one blob reference out of JSON, as
`ManifestConfig(**...)` does (pydantic type coercions from strings are
not modelled: fields must have their declared types). -/
def parseBlob (j : JVal) : Option ManifestBlob :=
  match j with
  | .obj c =>
      match jGet c "mediaType", jGet c "size", jGet c "digest" with
      | some (.str mt), some (.num sz), some (.str dg) => some ⟨mt, sz, dg⟩
      | _, _, _ => none
  | _ => none

/-- `ManifestV2(**manifest_data)`. -/
def parseManifestV2 (d : List (String × JVal)) : Option ManifestV2 :=
  match jGet d "schemaVersion", jGet d "mediaType", jGet d "config", jGet d "layers" with
  | some (.num sv), some (.str mt), some cj, some (.arr ls) =>
      match parseBlob cj, ls.mapM parseBlob with
      | some cb, some lbs => some ⟨sv, mt, cb, lbs⟩
      | _, _ => none
  | _, _, _, _ => none

/-- The size fields computed by `_parse_manifest_metadata` (the
config-blob extras are optional and no claim reads them). -/
structure ManifestMetadata where
  total_size : Int
  config_size : Int
  layers_size : Int
  layers_count : Nat
deriving DecidableEq, Repr

/-- `RegistryClient._parse_manifest_metadata`, size part:
`config_size = manifest.config.size`,
`layers_size = sum(layer.size for layer in manifest.layers)`,
`total_size = config_size + layers_size`. -/
def parseManifestMetadata (m : ManifestV2) : ManifestMetadata :=
  let config_size := m.config.size
  let layers_size := (m.layers.map (fun l => l.size)).sum
  { total_size := config_size + layers_size, config_size := config_size
    layers_size := layers_size, layers_count := m.layers.length }

/-- `RegistryValidationError(f"Invalid manifest structure for
'{repository_name}:{tag}'")` — default status 422; the Python message
wraps the reference in single quotes. -/
def mkManifestValidationError (repository tag : String) : RegError :=
  ⟨.validation, some 422, none, "Invalid manifest structure for " ++ repository ++ ":" ++ tag⟩

/-- The pure tail of `RegistryClient.get_manifest` once the HTTP
response arrived: validate the JSON body `d`, then build the typed
manifest paired with the `Docker-Content-Digest` header value.  A
pydantic parse failure falls into the generic
`except Exception` re-wrap of `get_manifest`. -/
def getManifestStep (repository tag digest : String)
    (d : List (String × JVal)) : Except RegError (ManifestV2 × String) :=
  if validateManifestData d = false then
    .error (mkManifestValidationError repository tag)
  else
    match parseManifestV2 d with
    | some m => .ok (m, digest)
    | none => .error ⟨.base, none, none, "Failed to get manifest for " ++ repository ++ ":" ++ tag⟩

/-- Observer: the class of the error produced by a fallible step, if it
failed. -/
def exceptErrCls {β : Type} : Except RegError β → Option ErrCls
  | .error e => some e.cls
  | .ok _ => none

/-! ## Theorems: circuit breaker -/

/-- While closed, consecutive retriable failures keep the breaker closed
and add one to the failure count each. -/
theorem recordFailures_closed (cfg : CBConfig) (now : ℚ) :
    ∀ (k : Nat) (st : CBState), st.mode = .closed →
      (recordFailures cfg st now k).mode = .closed ∧
        (recordFailures cfg st now k).failure_count = st.failure_count + k := by
  intro k
  induction k with
  | zero => intro st h; simp [recordFailures, h]
  | succ k ih =>
      intro st h
      obtain ⟨hmode, hcount⟩ := ih st h
      simp only [recordFailures, recordFailure, hmode]
      refine ⟨rfl, ?_⟩
      simp [hcount]
      ring

/-- While half-open with strictly fewer recorded calls than the budget
allows, consecutive successes keep the breaker half-open and add one to
the half-open call count each. -/
theorem recordSuccesses_halfOpen (cfg : CBConfig) (now : ℚ) :
    ∀ (j : Nat) (st : CBState), st.mode = .halfOpen →
      st.half_open_calls + (j : Int) < cfg.half_open_max_calls →
      (recordSuccesses cfg st now j).mode = .halfOpen ∧
        (recordSuccesses cfg st now j).half_open_calls = st.half_open_calls + j := by
  intro j
  induction j with
  | zero => intro st h _; simp [recordSuccesses, h]
  | succ j ih =>
      intro st h hlt
      obtain ⟨hmode, hcount⟩ := ih st h (by push_cast at hlt ⊢; omega)
      simp only [recordSuccesses, recordSuccess, hmode]
      rw [if_neg]
      · refine ⟨rfl, ?_⟩
        simp [hcount]
        ring
      · simp [hcount]
        push_cast at hlt ⊢
        omega

/-- Claim C1: the circuit-breaker step functions realise the specified
state machine.  With `threshold = k` and `half_open_max_calls = m ≥ 1`:
(a) from the initial state, `k` consecutive retriable failures followed
by a state query yield `OPEN`, while after any `j < k` failures a query
still yields `CLOSED`; (b) a success while closed resets the failure
count to `0` and stays closed; (c) a state query while open, strictly
more than `timeout` after the last failure, yields `HALF_OPEN` with the
half-open call count reset to `0`; (d) `m` consecutive successes from a
fresh half-open state close the circuit with failure count `0`; (e) a
single failure (of either retriability) while half-open re-opens the
circuit with the failure count pinned to the threshold and the half-open
call count reset to `0`. -/
theorem c1_circuit_breaker_state_machine
    (cfg : CBConfig) (t0 now now2 : ℚ) (k m : Nat)
    (hk : cfg.threshold = (k : Int)) (hm : cfg.half_open_max_calls = (m : Int))
    (hm1 : 1 ≤ m) :
    ((getCircuitBreakerState cfg (recordFailures cfg (initialCBState t0) now k) now2).1
        = .opened
      ∧ ∀ j : Nat, j < k →
        (getCircuitBreakerState cfg (recordFailures cfg (initialCBState t0) now j) now2).1
          = .closed)
    ∧ (∀ st : CBState, st.mode = .closed →
        (recordSuccess cfg st now).failure_count = 0 ∧ (recordSuccess cfg st now).mode = .closed)
    ∧ (∀ st : CBState, st.mode = .opened → now - st.last_failure_time > cfg.timeout →
        (getCircuitBreakerState cfg st now).1 = .halfOpen
          ∧ (getCircuitBreakerState cfg st now).2.half_open_calls = 0)
    ∧ (∀ st : CBState, st.mode = .halfOpen → st.half_open_calls = 0 →
        (recordSuccesses cfg st now m).mode = .closed
          ∧ (recordSuccesses cfg st now m).failure_count = 0)
    ∧ (∀ (st : CBState) (b : Bool), st.mode = .halfOpen →
        (recordFailure cfg st now b).mode = .opened
          ∧ (recordFailure cfg st now b).failure_count = cfg.threshold
          ∧ (recordFailure cfg st now b).half_open_calls = 0) := by
  refine ⟨⟨?_, ?_⟩, ?_, ?_, ?_, ?_⟩
  · obtain ⟨hmode, hcount⟩ := recordFailures_closed cfg now k (initialCBState t0) rfl
    simp only [getCircuitBreakerState, hmode]
    rw [if_pos]
    rw [hcount, hk]
    simp [initialCBState]
  · intro j hj
    obtain ⟨hmode, hcount⟩ := recordFailures_closed cfg now j (initialCBState t0) rfl
    simp only [getCircuitBreakerState, hmode]
    rw [if_neg]
    rw [hcount, hk]
    simp only [initialCBState]
    omega
  · intro st h
    simp [recordSuccess, h]
  · intro st h ht
    simp [getCircuitBreakerState, h, ht]
  · intro st h h0
    obtain ⟨m', rfl⟩ : ∃ m', m = m' + 1 := ⟨m - 1, by omega⟩
    obtain ⟨hmode, hcount⟩ :=
      recordSuccesses_halfOpen cfg now m' st h (by rw [h0, hm]; push_cast; omega)
    simp only [recordSuccesses, recordSuccess, hmode]
    rw [if_pos]
    · exact ⟨rfl, rfl⟩
    · simp [hcount, h0, hm]
  · intro st b h
    cases b <;> simp [recordFailure, h]

/-- Witness for C1 at the default configuration (`threshold 5`,
`timeout 60`, `half_open_max_calls 3`). -/
theorem c1_circuit_breaker_state_machine_witness :
    (getCircuitBreakerState defaultCBConfig
        (recordFailures defaultCBConfig (initialCBState 0) 10 5) 11).1 = .opened
    ∧ (recordSuccesses defaultCBConfig
        { failure_count := 5, last_failure_time := 3, last_success_time := 0
          half_open_calls := 0, mode := .halfOpen } 20 3).mode = .closed :=
  ⟨(c1_circuit_breaker_state_machine defaultCBConfig 0 10 11 5 3 (by decide) (by decide)
      (by decide)).1.1,
   ((c1_circuit_breaker_state_machine defaultCBConfig 0 20 11 5 3 (by decide) (by decide)
      (by decide)).2.2.2.1
      { failure_count := 5, last_failure_time := 3, last_success_time := 0
        half_open_calls := 0, mode := .halfOpen } rfl rfl).1⟩

/-- Claim C2 counterexample: while closed with `failure_count = 1`, a
non-retriable failure leaves `failure_count = 1` — the source first
increments, then applies `max(0, count - 1)`, so the net effect is no
change — whereas the claim predicts `max(0, 1 - 1) = 0`. -/
theorem c2_counterexample :
    (recordFailure defaultCBConfig
        { failure_count := 1, last_failure_time := 0, last_success_time := 0
          half_open_calls := 0, mode := .closed } 5 false).failure_count = 1
    ∧ ((1 : Int) ≠ max 0 (1 - 1)) := by
  exact ⟨rfl, by decide⟩

/-- Claim C2 (amended): recording a non-retriable failure while closed
leaves `failure_count` at `max(0, n)` — i.e. unchanged for every
reachable (nonnegative) count `n`, not decremented — and keeps the
breaker closed. -/
theorem c2_nonretriable_failure_neutral (cfg : CBConfig) (st : CBState) (now : ℚ)
    (h : st.mode = .closed) :
    (recordFailure cfg st now false).failure_count = max 0 st.failure_count
    ∧ (recordFailure cfg st now false).mode = .closed := by
  simp only [recordFailure, h]
  norm_num

/-- Witness for the amended C2. -/
theorem c2_nonretriable_failure_neutral_witness :
    (recordFailure defaultCBConfig
        { failure_count := 1, last_failure_time := 0, last_success_time := 0
          half_open_calls := 0, mode := .closed } 5 false).failure_count = max 0 1
    ∧ (recordFailure defaultCBConfig
        { failure_count := 1, last_failure_time := 0, last_success_time := 0
          half_open_calls := 0, mode := .closed } 5 false).mode = .closed :=
  c2_nonretriable_failure_neutral defaultCBConfig
    { failure_count := 1, last_failure_time := 0, last_success_time := 0
      half_open_calls := 0, mode := .closed } 5 rfl

/-- One circuit-breaker interaction keeps the failure count nonnegative
(given a nonnegative threshold, as configured by default). -/
theorem applyCBOp_failure_count_nonneg (cfg : CBConfig) (hthr : 0 ≤ cfg.threshold)
    (st : CBState) (h : 0 ≤ st.failure_count) (op : CBOp) :
    0 ≤ (applyCBOp cfg st op).failure_count := by
  cases op with
  | fail now r =>
      cases r <;> simp only [applyCBOp, recordFailure] <;> cases hm : st.mode <;> simp <;> omega
  | succeed now =>
      simp only [applyCBOp, recordSuccess]
      cases hm : st.mode <;> simp [h]
      split <;> simp [h]
  | query now =>
      simp only [applyCBOp, getCircuitBreakerState]
      cases hm : st.mode <;> simp [h] <;> split <;> simp [h]
  | reset now => simp [applyCBOp, resetCircuitBreaker]

/-- Claim C9: starting from the initial state, every sequence of
record-failure (of either retriability), record-success, state-query and
reset interactions keeps `failure_count ≥ 0` (with a nonnegative
configured threshold; the default is 5). -/
theorem c9_failure_count_nonneg (cfg : CBConfig) (hthr : 0 ≤ cfg.threshold)
    (t0 : ℚ) (ops : List CBOp) :
    0 ≤ (applyCBOps cfg (initialCBState t0) ops).failure_count := by
  have main : ∀ (l : List CBOp) (st : CBState), 0 ≤ st.failure_count →
      0 ≤ (applyCBOps cfg st l).failure_count := by
    intro l
    induction l with
    | nil => intro st h; simpa [applyCBOps]
    | cons op rest ih =>
        intro st h
        exact ih _ (applyCBOp_failure_count_nonneg cfg hthr st h op)
  exact main ops (initialCBState t0) (by simp [initialCBState])

/-- Witness for C9: a concrete interaction history mixing every kind of
operation. -/
theorem c9_failure_count_nonneg_witness :
    0 ≤ (applyCBOps defaultCBConfig (initialCBState 0)
      [.fail 1 true, .fail 2 false, .succeed 3, .query 4, .fail 5 true,
       .reset 6, .fail 7 false, .query 100]).failure_count :=
  c9_failure_count_nonneg defaultCBConfig (by decide) 0
    [.fail 1 true, .fail 2 false, .succeed 3, .query 4, .fail 5 true,
     .reset 6, .fail 7 false, .query 100]

/-! ## Theorems: retry delay -/

/-- `_handle_error_response` stores a `retry_after` only in its 429 and
503 branches, whose errors are rate-limit and unavailable errors. -/
theorem errorForStatus_retry_after_cases (s : Int) (c m : Option String) (ra : Option ℚ) :
    (errorForStatus s c m ra).retry_after = none
    ∨ (errorForStatus s c m ra).cls = .rateLimit
    ∨ (errorForStatus s c m ra).cls = .unavailable := by
  unfold errorForStatus
  by_cases h1 : s = 400
  · rw [if_pos h1]; exact Or.inl rfl
  rw [if_neg h1]
  by_cases h2 : s = 401
  · rw [if_pos h2]; exact Or.inl rfl
  rw [if_neg h2]
  by_cases h3 : s = 403
  · rw [if_pos h3]; exact Or.inl rfl
  rw [if_neg h3]
  by_cases h4 : s = 404
  · rw [if_pos h4]; exact Or.inl rfl
  rw [if_neg h4]
  by_cases h5 : s = 405
  · rw [if_pos h5]; exact Or.inl rfl
  rw [if_neg h5]
  by_cases h6 : s = 409
  · rw [if_pos h6]; exact Or.inl rfl
  rw [if_neg h6]
  by_cases h7 : s = 416
  · rw [if_pos h7]; exact Or.inl rfl
  rw [if_neg h7]
  by_cases h8 : s = 429
  · rw [if_pos h8]; exact Or.inr (Or.inl rfl)
  rw [if_neg h8]
  by_cases h9 : s = 500
  · rw [if_pos h9]; exact Or.inl rfl
  rw [if_neg h9]
  by_cases h10 : s = 502
  · rw [if_pos h10]; exact Or.inl rfl
  rw [if_neg h10]
  by_cases h11 : s = 503
  · rw [if_pos h11]; exact Or.inr (Or.inr rfl)
  rw [if_neg h11]
  by_cases h12 : s = 504
  · rw [if_pos h12]; exact Or.inl rfl
  rw [if_neg h12]
  by_cases h13 : s ≥ 500
  · rw [if_pos h13]; exact Or.inl rfl
  rw [if_neg h13]
  exact Or.inl rfl

/-- Claim C4: for every attempt index and every error the retry loop can
pass to `_get_retry_delay`: (1) when the error carries a
`details.retry_after` value, the computed delay equals that value
exactly; (2) otherwise the delay equals
`min(base_delay * 2^attempt, max_delay)` plus a jitter term lying in
`[0, 0.25 * min(base_delay * 2^attempt, max_delay)]`; (3) ignoring
jitter, the delay is monotonically non-decreasing in the attempt index
and (4) never exceeds `max_delay`.  (`rand` is the `random.random()`
draw in `[0, 1)`; base and maximum delays are nonnegative, as any real
configuration has them.) -/
theorem c4_retry_delay (cfg : RetryConfig)
    (hb : 0 ≤ cfg.retry_delay) (hmax : 0 ≤ cfg.max_retry_delay) :
    (∀ e : RegError, TriggeringError e → ∀ q : ℚ, e.retry_after = some q →
      ∀ (a : Nat) (r : ℚ), getRetryDelay cfg a (some e) r = q)
    ∧ (∀ (a : Nat) (r : ℚ) (exc : Option RegError), 0 ≤ r → r < 1 →
        retryAfterUsed exc = none →
        ∃ j : ℚ, getRetryDelay cfg a exc r = retryDelayBase cfg a + j
          ∧ 0 ≤ j ∧ j ≤ (1 / 4) * retryDelayBase cfg a)
    ∧ (∀ a b : Nat, a ≤ b → retryDelayBase cfg a ≤ retryDelayBase cfg b)
    ∧ (∀ a : Nat, retryDelayBase cfg a ≤ cfg.max_retry_delay) := by
  have hbase_nonneg : ∀ a : Nat, 0 ≤ retryDelayBase cfg a := by
    intro a
    refine le_min (mul_nonneg hb (by positivity)) hmax
  refine ⟨?_, ?_, ?_, ?_⟩
  · intro e ht q hq a r
    have hcls : e.cls = .rateLimit ∨ e.cls = .unavailable := by
      rcases ht with ⟨s, c, m, ra, rfl⟩ | ⟨m, rfl⟩ | ⟨m, rfl⟩ | ⟨m, rfl⟩
      · rcases errorForStatus_retry_after_cases s c m ra with h | h
        · rw [hq] at h; exact Option.noConfusion h
        · exact h
      · simp [wrapTimeoutError] at hq
      · simp [wrapConnectionError] at hq
      · simp [wrapUnexpectedError] at hq
    obtain ⟨cls, sc, ra, msg⟩ := e
    simp only at hq hcls
    subst hq
    rcases hcls with h | h <;> subst h <;> rfl
  · intro a r exc hr0 hr1 hused
    refine ⟨retryDelayBase cfg a * (1 / 4) * r, ?_, ?_, ?_⟩
    · match exc with
      | none => rfl
      | some ⟨cls, sc, ra, msg⟩ =>
          cases cls <;> cases ra <;>
            simp_all [getRetryDelay, retryAfterUsed, retryDelayBase]
    · have := hbase_nonneg a
      positivity
    · have h0 := hbase_nonneg a
      nlinarith [h0, hr0, hr1]
  · intro a b hab
    refine min_le_min (mul_le_mul_of_nonneg_left ?_ hb) le_rfl
    exact pow_le_pow_right₀ (by norm_num) hab
  · intro a
    exact min_le_right _ _

/-- Witness for C4: a 429 error with `Retry-After: 10` yields delay 10
exactly; at the default configuration the pre-jitter delay is monotone
from attempt 1 to 2 and capped at attempt 10. -/
theorem c4_retry_delay_witness :
    getRetryDelay defaultRetryConfig 0 (some (errorForStatus 429 none none (some 10))) (1 / 2)
        = 10
    ∧ retryDelayBase defaultRetryConfig 1 ≤ retryDelayBase defaultRetryConfig 2
    ∧ retryDelayBase defaultRetryConfig 10 ≤ defaultRetryConfig.max_retry_delay :=
  ⟨(c4_retry_delay defaultRetryConfig (by norm_num [defaultRetryConfig])
        (by norm_num [defaultRetryConfig])).1
      (errorForStatus 429 none none (some 10)) (Or.inl ⟨429, none, none, some 10, rfl⟩)
      10 (by norm_num [errorForStatus]) 0 (1 / 2),
   (c4_retry_delay defaultRetryConfig (by norm_num [defaultRetryConfig])
        (by norm_num [defaultRetryConfig])).2.2.1 1 2 (by norm_num),
   (c4_retry_delay defaultRetryConfig (by norm_num [defaultRetryConfig])
        (by norm_num [defaultRetryConfig])).2.2.2 10⟩

/-! ## Theorems: the retry loop and failure recording -/

/-- `getLast?` is preserved by consing in front of a nonempty list. -/
theorem getLast?_cons_keep {α : Type} (a x : α) (l : List α) (h : l.getLast? = some x) :
    (a :: l).getLast? = some x := by
  cases l with
  | nil => simp at h
  | cons b t => simpa [List.getLast?_cons_cons] using h

/-- When the post-loop epilogue records a failure, the recorded
classification is `_is_retriable_error` of the raised error. -/
theorem endLoop_recorded_matches (cfg : RetryConfig) (last : Option RegError) (e : RegError)
    (b : Bool) (h : endLoop cfg last = .raised e (some b)) :
    b = isRetriableError cfg e := by
  cases last with
  | some e' =>
      simp only [endLoop, ReqResult.raised.injEq, Option.some.injEq] at h
      obtain ⟨rfl, h2⟩ := h
      exact h2.symm
  | none =>
      simp only [endLoop, ReqResult.raised.injEq, Option.some.injEq] at h
      obtain ⟨rfl, h2⟩ := h
      rw [← h2]
      rfl

/-- Whenever the retry loop records a failure at all, the recorded
classification matches the raised error. -/
theorem runAttemptsGo_recorded_matches (cfg : RetryConfig) (oracle : Nat → AttemptOutcome) :
    ∀ (fuel attempt : Nat) (last : Option RegError) (e : RegError) (b : Bool),
      runAttemptsGo cfg oracle fuel attempt last = .raised e (some b) →
      b = isRetriableError cfg e := by
  intro fuel
  induction fuel with
  | zero =>
      intro attempt last e b h
      exact endLoop_recorded_matches cfg last e b h
  | succ fuel ih =>
      intro attempt last e b h
      cases horacle : oracle attempt <;> simp only [runAttemptsGo, horacle] at h
      case success => exact ReqResult.noConfusion h
      case authRetry e401 =>
          by_cases ha : attempt < cfg.max_retries
          · rw [if_pos ha] at h
            exact ih (attempt + 1) last e b h
          · rw [if_neg ha] at h
            simp only [ReqResult.raised.injEq] at h
            exact Option.noConfusion h.2
      case httpTimeout m =>
          by_cases hr : isRetriableError cfg (wrapTimeoutError m) = true
          · rw [if_pos hr] at h
            exact ih (attempt + 1) (some (wrapTimeoutError m)) e b h
          · rw [if_neg hr] at h
            exact endLoop_recorded_matches cfg _ e b h
      case httpNetwork m =>
          by_cases hr : isRetriableError cfg (wrapConnectionError m) = true
          · rw [if_pos hr] at h
            exact ih (attempt + 1) (some (wrapConnectionError m)) e b h
          · rw [if_neg hr] at h
            exact endLoop_recorded_matches cfg _ e b h
      case registryError e0 =>
          by_cases hc : isRetriableError cfg e0 = true ∧ attempt < cfg.max_retries
          · rw [if_pos hc] at h
            exact ih (attempt + 1) (some e0) e b h
          · rw [if_neg hc] at h
            simp only [ReqResult.raised.injEq] at h
            exact Option.noConfusion h.2
      case unexpected m =>
          by_cases hr : isRetriableError cfg (wrapUnexpectedError m) = true
          · rw [if_pos hr] at h
            exact ih (attempt + 1) (some (wrapUnexpectedError m)) e b h
          · rw [if_neg hr] at h
            exact endLoop_recorded_matches cfg _ e b h

/-- The error raised by a failing loop execution is the last error it
encountered — or `last_exception` (respectively the generic
`RegistryException`) when the remaining iterations encounter none. -/
theorem runAttemptsGo_raised_last (cfg : RetryConfig) (oracle : Nat → AttemptOutcome) :
    ∀ (fuel attempt : Nat) (last : Option RegError) (e : RegError) (rec : Option Bool),
      runAttemptsGo cfg oracle fuel attempt last = .raised e rec →
      (encTraceGo cfg oracle fuel attempt).getLast? = some e
      ∨ (encTraceGo cfg oracle fuel attempt = [] ∧ last = some e)
      ∨ (encTraceGo cfg oracle fuel attempt = [] ∧ last = none ∧ e = allRetriesFailedError) := by
  intro fuel
  induction fuel with
  | zero =>
      intro attempt last e rec h
      simp only [runAttemptsGo] at h
      cases last with
      | some e' =>
          simp only [endLoop, ReqResult.raised.injEq] at h
          exact Or.inr (Or.inl ⟨rfl, by rw [h.1]⟩)
      | none =>
          simp only [endLoop, ReqResult.raised.injEq] at h
          exact Or.inr (Or.inr ⟨rfl, rfl, h.1.symm⟩)
  | succ fuel ih =>
      intro attempt last e rec h
      cases horacle : oracle attempt <;> simp only [runAttemptsGo, encTraceGo, horacle] at h ⊢
      case success => exact ReqResult.noConfusion h
      case authRetry e401 =>
          by_cases ha : attempt < cfg.max_retries
          · rw [if_pos ha] at h ⊢
            exact ih attempt.succ last e rec h
          · rw [if_neg ha] at h ⊢
            simp only [ReqResult.raised.injEq] at h
            rw [h.1]
            exact Or.inl rfl
      case httpTimeout m =>
          by_cases hr : isRetriableError cfg (wrapTimeoutError m) = true
          · rw [if_pos hr] at h ⊢
            rcases ih attempt.succ (some (wrapTimeoutError m)) e rec h with
              h1 | ⟨h1, h2⟩ | ⟨h1, h2, h3⟩
            · exact Or.inl (getLast?_cons_keep _ _ _ h1)
            · rw [h1]
              rw [Option.some_inj] at h2
              rw [h2]
              exact Or.inl rfl
            · exact Option.noConfusion h2
          · rw [if_neg hr] at h ⊢
            cases h' : endLoop cfg (some (wrapTimeoutError m)) with
            | ok => rw [h'] at h; exact ReqResult.noConfusion h
            | raised e2 r2 =>
                rw [h'] at h
                simp only [endLoop, ReqResult.raised.injEq] at h'
                simp only [ReqResult.raised.injEq] at h
                rw [← h.1, ← h'.1]
                exact Or.inl rfl
      case httpNetwork m =>
          by_cases hr : isRetriableError cfg (wrapConnectionError m) = true
          · rw [if_pos hr] at h ⊢
            rcases ih attempt.succ (some (wrapConnectionError m)) e rec h with
              h1 | ⟨h1, h2⟩ | ⟨h1, h2, h3⟩
            · exact Or.inl (getLast?_cons_keep _ _ _ h1)
            · rw [h1]
              rw [Option.some_inj] at h2
              rw [h2]
              exact Or.inl rfl
            · exact Option.noConfusion h2
          · rw [if_neg hr] at h ⊢
            cases h' : endLoop cfg (some (wrapConnectionError m)) with
            | ok => rw [h'] at h; exact ReqResult.noConfusion h
            | raised e2 r2 =>
                rw [h'] at h
                simp only [endLoop, ReqResult.raised.injEq] at h'
                simp only [ReqResult.raised.injEq] at h
                rw [← h.1, ← h'.1]
                exact Or.inl rfl
      case registryError e0 =>
          by_cases hc : isRetriableError cfg e0 = true ∧ attempt < cfg.max_retries
          · rw [if_pos hc] at h ⊢
            rcases ih attempt.succ (some e0) e rec h with h1 | ⟨h1, h2⟩ | ⟨h1, h2, h3⟩
            · exact Or.inl (getLast?_cons_keep _ _ _ h1)
            · rw [h1]
              rw [Option.some_inj] at h2
              rw [h2]
              exact Or.inl rfl
            · exact Option.noConfusion h2
          · rw [if_neg hc] at h ⊢
            simp only [ReqResult.raised.injEq] at h
            rw [h.1]
            exact Or.inl rfl
      case unexpected m =>
          by_cases hr : isRetriableError cfg (wrapUnexpectedError m) = true
          · rw [if_pos hr] at h ⊢
            rcases ih attempt.succ (some (wrapUnexpectedError m)) e rec h with
              h1 | ⟨h1, h2⟩ | ⟨h1, h2, h3⟩
            · exact Or.inl (getLast?_cons_keep _ _ _ h1)
            · rw [h1]
              rw [Option.some_inj] at h2
              rw [h2]
              exact Or.inl rfl
            · exact Option.noConfusion h2
          · rw [if_neg hr] at h ⊢
            cases h' : endLoop cfg (some (wrapUnexpectedError m)) with
            | ok => rw [h'] at h; exact ReqResult.noConfusion h
            | raised e2 r2 =>
                rw [h'] at h
                simp only [endLoop, ReqResult.raised.injEq] at h'
                simp only [ReqResult.raised.injEq] at h
                rw [← h.1, ← h'.1]
                exact Or.inl rfl

/-- Claim C3 counterexample: with the default retry configuration, an
execution in which every attempt raises a non-retriable
`RegistryAuthError` (HTTP 401) raises that last error as-is but records
no circuit-breaker failure at all — the `raise` inside the
`except RegistryException` branch bypasses the post-loop
`_record_failure` call — contradicting "exactly one failure is
recorded". -/
theorem c3_counterexample :
    raisedOf (runAttempts defaultRetryConfig
        (fun _ => .registryError ⟨.auth, some 401, none, "Authentication required"⟩))
      = some ⟨.auth, some 401, none, "Authentication required"⟩
    ∧ recordedOf (runAttempts defaultRetryConfig
        (fun _ => .registryError ⟨.auth, some 401, none, "Authentication required"⟩)) = none :=
  ⟨rfl, rfl⟩

/-- Claim C3 (amended): for every failing execution of the retry loop,
the raised error is the last error encountered (raised as-is, never
re-wrapped), and at most one circuit-breaker failure is recorded; when
one is recorded, its retriable/non-retriable classification matches the
raised error.  (Errors raised through the `except RegistryException`
branch — non-retriable ones, and retriable ones on the final attempt —
propagate without any failure being recorded.) -/
theorem c3_retry_loop_raise_and_record (cfg : RetryConfig) (oracle : Nat → AttemptOutcome)
    (e : RegError) (rec : Option Bool)
    (h : runAttempts cfg oracle = .raised e rec) :
    (∀ b : Bool, rec = some b → b = isRetriableError cfg e)
    ∧ (encTrace cfg oracle ≠ [] → (encTrace cfg oracle).getLast? = some e) := by
  constructor
  · intro b hb
    rw [hb] at h
    exact runAttemptsGo_recorded_matches cfg oracle (cfg.max_retries + 1) 0 none e b h
  · intro hne
    rcases runAttemptsGo_raised_last cfg oracle (cfg.max_retries + 1) 0 none e rec h with
      h1 | ⟨h1, h2⟩ | ⟨h1, h2, h3⟩
    · exact h1
    · exact Option.noConfusion h2
    · exact absurd h1 hne

/-- Witness for the amended C3: every attempt times out; the raised
error is the wrapped timeout (the last error encountered) and the one
recorded failure is classified retriable. -/
theorem c3_retry_loop_raise_and_record_witness :
    runAttempts defaultRetryConfig (fun _ => .httpTimeout "boom")
      = .raised (wrapTimeoutError "boom") (some true)
    ∧ (encTrace defaultRetryConfig (fun _ => .httpTimeout "boom")).getLast?
      = some (wrapTimeoutError "boom")
    ∧ true = isRetriableError defaultRetryConfig (wrapTimeoutError "boom") := by
  have h : runAttempts defaultRetryConfig (fun _ => .httpTimeout "boom")
      = .raised (wrapTimeoutError "boom") (some true) := rfl
  have hc := c3_retry_loop_raise_and_record defaultRetryConfig (fun _ => .httpTimeout "boom")
    (wrapTimeoutError "boom") (some true) h
  exact ⟨h, hc.2 (by decide), hc.1 true rfl⟩

/-! ## Theorems: bearer-token expiry -/

/-- Claim C5 counterexample: a token exchange at `T = 1000` returning
`expires_in = 0` stores NO expiry instant (`if bearer_token.expires_in:`
is false at `0`), and the token is reported valid at time `1000` —
whereas the claim predicts a stored expiry of `1000 + 0 - 60 = 940`,
hence an expired report at any time from `940` on. -/
theorem c5_counterexample :
    (obtainBearerToken initialAuthState ⟨"tok", none, some 0⟩ 1000).token_expires_at = none
    ∧ (obtainBearerToken initialAuthState ⟨"tok", none, some 0⟩ 1000).token_expires_at
        ≠ some (1000 + ((0 : Int) : ℚ) - 60)
    ∧ isTokenExpired (obtainBearerToken initialAuthState ⟨"tok", none, some 0⟩ 1000) 1000
        = false := by
  refine ⟨rfl, ?_, rfl⟩
  decide

/-- Claim C5 (amended): when a token exchange at time `T` returns a
truthy — present and nonzero — `expires_in`, the stored expiry instant
equals `T + expires_in - 60`, and (for a nonempty stored token string
and a nonzero stored instant, the falsy edge of
`if self._token_expires_at:`) the token is reported expired exactly when
the current time is ≥ that instant.  When `expires_in` is absent or
zero and no earlier expiry instant is stored, the token is valid
indefinitely. -/
theorem c5_token_expiry (st : AuthState) (bt : BearerToken) (now : ℚ) :
    (∀ e : Int, bt.expires_in = some e → e ≠ 0 →
      (obtainBearerToken st bt now).token_expires_at = some (now + (e : ℚ) - 60)
      ∧ (effectiveToken bt ≠ "" → now + (e : ℚ) - 60 ≠ 0 → ∀ t : ℚ,
          isTokenExpired (obtainBearerToken st bt now) t = decide (t ≥ now + (e : ℚ) - 60)))
    ∧ ((bt.expires_in = none ∨ bt.expires_in = some 0) → st.token_expires_at = none →
        effectiveToken bt ≠ "" → ∀ t : ℚ,
          isTokenExpired (obtainBearerToken st bt now) t = false) := by
  constructor
  · intro e he hne
    have hobt : (obtainBearerToken st bt now)
        = { auth_token := some (effectiveToken bt)
            token_expires_at := some (now + (e : ℚ) - 60) } := by
      simp [obtainBearerToken, he, hne]
    refine ⟨by rw [hobt], ?_⟩
    intro htok hnz t
    rw [hobt]
    simp only [isTokenExpired]
    rw [if_neg htok, if_pos hnz]
  · intro he hst htok t
    have hobt : (obtainBearerToken st bt now)
        = { auth_token := some (effectiveToken bt), token_expires_at := none } := by
      rcases he with he | he <;> simp [obtainBearerToken, he, hst]
    rw [hobt]
    simp only [isTokenExpired]
    rw [if_neg htok]

/-- Witness for the amended C5, at the claim instance: a token obtained
at `T = 10^6` with `expires_in = 3600` is reported valid at `T + 3500`
and expired at `T + 3541`. -/
theorem c5_token_expiry_witness :
    isTokenExpired (obtainBearerToken initialAuthState ⟨"tok", none, some 3600⟩ 1000000)
        (1000000 + 3500) = false
    ∧ isTokenExpired (obtainBearerToken initialAuthState ⟨"tok", none, some 3600⟩ 1000000)
        (1000000 + 3541) = true := by
  have h := ((c5_token_expiry initialAuthState ⟨"tok", none, some 3600⟩ 1000000).1 3600
    rfl (by decide)).2 (by decide) (by norm_num)
  rw [h (1000000 + 3500), h (1000000 + 3541)]
  constructor <;> norm_num

/-! ## Theorems: authentication-challenge handling -/

/-- Claim C10: for every 401 response whose `WWW-Authenticate` header is
absent or does not start with `"Bearer "`, challenge handling raises the
authentication error `"Invalid authentication challenge"`, no token
exchange is attempted (the result is identical for every possible
exchange behaviour), and the stored challenge and token state are left
unchanged. -/
theorem c10_invalid_challenge (st : FullAuthState) (hdr : Option String)
    (hbad : hdr = none ∨ ∃ s, hdr = some s ∧ ¬ pyStartsWith s "Bearer ") :
    ∀ exchange : FullAuthState → Option RegError × FullAuthState,
      handleAuthChallenge st hdr exchange = (some invalidChallengeError, st)
      ∧ invalidChallengeError.cls = .auth := by
  intro exchange
  refine ⟨?_, rfl⟩
  rcases hbad with rfl | ⟨s, rfl, hs⟩
  · rfl
  · simp only [handleAuthChallenge]
    rw [if_pos hs]

/-- Witness for C10: a `WWW-Authenticate: Basic abc` header (present but
not a Bearer challenge), with an exchange that would succeed, still
fails with the auth error and leaves the fresh state unchanged. -/
theorem c10_invalid_challenge_witness :
    handleAuthChallenge ⟨initialAuthState, none⟩ (some "Basic abc") (fun s => (none, s))
      = (some invalidChallengeError, ⟨initialAuthState, none⟩) :=
  (c10_invalid_challenge ⟨initialAuthState, none⟩ (some "Basic abc")
    (Or.inr ⟨"Basic abc", rfl, by decide⟩) (fun s => (none, s))).1

/-! ## Theorems: cache capacity and eviction order -/

/-- `sortByExpiry` unfolded to the underlying insertion sort. -/
theorem sortByExpiry_eq {α : Type} (c : Cache α) :
    sortByExpiry c = List.insertionSort (fun a b => a.2.2 ≤ b.2.2) c := rfl

/-- `_evict_oldest_cache_entries` as a single filter expression. -/
theorem evictOldest_eq {α : Type} (count : Nat) (c : Cache α) :
    evictOldestCacheEntries count c
      = c.filter (fun e => ! (((sortByExpiry c).take count).map Prod.fst).contains e.1) := rfl

/-- Dict insertion grows the item list by at most one entry. -/
theorem cacheInsert_length_le {α : Type} (c : Cache α) (k : String) (v : α) (ea : ℚ) :
    (cacheInsert c k v ea).length ≤ c.length + 1 := by
  unfold cacheInsert
  split
  · rw [List.length_map]; omega
  · rw [List.length_append]; simp

/-- With a positive eviction count and a nonempty cache,
`_evict_oldest_cache_entries` strictly shrinks the cache. -/
theorem evictOldest_length_lt {α : Type} (count : Nat) (hc : 1 ≤ count) (c : Cache α)
    (hne : c ≠ []) :
    (evictOldestCacheEntries count c).length < c.length := by
  rw [evictOldest_eq]
  apply List.length_filter_lt_length_iff_exists.mpr
  have hperm : (sortByExpiry c).Perm c := by
    rw [sortByExpiry_eq]
    exact List.perm_insertionSort _ c
  obtain ⟨x0, rest, hs⟩ : ∃ x0 rest, sortByExpiry c = x0 :: rest := by
    cases hs : sortByExpiry c with
    | nil =>
        exfalso
        rw [hs] at hperm
        exact hne hperm.nil_eq.symm
    | cons a l => exact ⟨a, l, rfl⟩
  refine ⟨x0, ?_, ?_⟩
  · have hmem : x0 ∈ sortByExpiry c := by rw [hs]; exact List.mem_cons_self x0 rest
    exact hperm.mem_iff.mp hmem
  · have htake : x0 ∈ (sortByExpiry c).take count := by
      rw [hs]
      cases count with
      | zero => exact absurd hc (by norm_num)
      | succ n => rw [List.take_succ_cons]; exact List.mem_cons_self _ _
    have hkey : x0.1 ∈ ((sortByExpiry c).take count).map Prod.fst :=
      List.mem_map_of_mem Prod.fst htake
    have hcontains : (((sortByExpiry c).take count).map Prod.fst).contains x0.1 = true :=
      List.elem_iff.mpr hkey
    show ¬ (! (((sortByExpiry c).take count).map Prod.fst).contains x0.1) = true
    rw [hcontains]
    decide

/-- Capacity-driven eviction never removes an entry expiring later while
keeping one expiring earlier (requires the dict invariant that keys are
unique). -/
theorem evictOldest_order {α : Type} (count : Nat) (c : Cache α)
    (hnodup : (c.map Prod.fst).Nodup) (x y : String × α × ℚ)
    (hx : x ∈ c) (hy : y ∈ c)
    (hxdrop : x ∉ evictOldestCacheEntries count c)
    (hykeep : y ∈ evictOldestCacheEntries count c) :
    x.2.2 ≤ y.2.2 := by
  have hperm : (sortByExpiry c).Perm c := by
    rw [sortByExpiry_eq]
    exact List.perm_insertionSort _ c
  have hpair : (sortByExpiry c).Pairwise (fun a b => a.2.2 ≤ b.2.2) := by
    haveI : IsTotal (String × α × ℚ) (fun a b => a.2.2 ≤ b.2.2) :=
      ⟨fun a b => le_total a.2.2 b.2.2⟩
    haveI : IsTrans (String × α × ℚ) (fun a b => a.2.2 ≤ b.2.2) :=
      ⟨fun a b c hab hbc => le_trans hab hbc⟩
    rw [sortByExpiry_eq]
    exact List.sorted_insertionSort _ c
  have hxkey : x.1 ∈ ((sortByExpiry c).take count).map Prod.fst := by
    by_contra hcon
    apply hxdrop
    rw [evictOldest_eq]
    refine List.mem_filter.mpr ⟨hx, ?_⟩
    show (! (((sortByExpiry c).take count).map Prod.fst).contains x.1) = true
    cases hcc : (((sortByExpiry c).take count).map Prod.fst).contains x.1 with
    | false => rfl
    | true => exact absurd (List.elem_iff.mp hcc) hcon
  obtain ⟨u, hu_take, hu_key⟩ := List.mem_map.mp hxkey
  have hu_c : u ∈ c := hperm.mem_iff.mp (List.mem_of_mem_take hu_take)
  have hux : u = x := List.inj_on_of_nodup_map hnodup hu_c hx hu_key
  have hxtake : x ∈ (sortByExpiry c).take count := hux ▸ hu_take
  have hykey : y.1 ∉ ((sortByExpiry c).take count).map Prod.fst := by
    intro hcon
    rw [evictOldest_eq] at hykeep
    have hpred : (! (((sortByExpiry c).take count).map Prod.fst).contains y.1) = true :=
      (List.mem_filter.mp hykeep).2
    have hcc : (((sortByExpiry c).take count).map Prod.fst).contains y.1 = true :=
      List.elem_iff.mpr hcon
    rw [hcc] at hpred
    exact Bool.noConfusion hpred
  have hytake : y ∉ (sortByExpiry c).take count :=
    fun hmem => hykey (List.mem_map_of_mem Prod.fst hmem)
  have hydrop : y ∈ (sortByExpiry c).drop count := by
    have hysort : y ∈ sortByExpiry c := hperm.mem_iff.mpr hy
    rw [← List.take_append_drop count (sortByExpiry c)] at hysort
    rcases List.mem_append.mp hysort with h | h
    · exact absurd h hytake
    · exact h
  have hsplit :
      ((sortByExpiry c).take count ++ (sortByExpiry c).drop count).Pairwise
        (fun a b => a.2.2 ≤ b.2.2) := by
    rw [List.take_append_drop]
    exact hpair
  exact (List.pairwise_append.mp hsplit).2.2 x hxtake y hydrop

/-- Claim C6 counterexample: with `max_size = 5` (configurable via
`configure_cache`) and five unexpired entries, inserting a sixth key
leaves six entries — `int(5 * 0.1) = 0` keys are evicted, so the bound
is violated.  The claim fails for every `max_size < 10`. -/
theorem c6_counterexample :
    ([("k1", 1, 100), ("k2", 2, 100), ("k3", 3, 100), ("k4", 4, 100), ("k5", 5, 100)]
        : Cache Nat).length ≤ 5
    ∧ (setCache 5
        ([("k1", 1, 100), ("k2", 2, 100), ("k3", 3, 100), ("k4", 4, 100), ("k5", 5, 100)]
          : Cache Nat) "k6" 6 10 0).length = 6
    ∧ ¬ (6 : Nat) ≤ 5 := by
  refine ⟨by decide, by decide, by decide⟩

/-- Claim C6 (amended): for `max_size ≥ 10` (so that the 10% eviction
count `int(max_size * 0.1)` is at least one; the default is 1000), an
insertion into a cache holding at most `max_size` entries leaves at most
`max_size` entries; and capacity-driven eviction never removes an entry
with a later `expires_at` while retaining one with an earlier
`expires_at` (under the dict invariant of pairwise-distinct keys). -/
theorem c6_cache_eviction (α : Type) :
    (∀ (maxSize : Nat) (c : Cache α) (k : String) (v : α) (ttl now : ℚ),
        10 ≤ maxSize → c.length ≤ maxSize →
        (setCache maxSize c k v ttl now).length ≤ maxSize)
    ∧ (∀ (count : Nat) (c : Cache α) (x y : String × α × ℚ),
        (c.map Prod.fst).Nodup → x ∈ c → y ∈ c →
        x ∉ evictOldestCacheEntries count c → y ∈ evictOldestCacheEntries count c →
        x.2.2 ≤ y.2.2) := by
  constructor
  · intro maxSize c k v ttl now h10 hlen
    have hinsert : ∀ c' : Cache α, (cacheInsert c' k v (now + ttl)).length ≤ c'.length + 1 :=
      fun c' => cacheInsert_length_le c' k v (now + ttl)
    simp only [setCache]
    by_cases h1 : c.length ≥ maxSize
    · rw [if_pos h1]
      have hc2le : (evictExpiredCacheEntries now c).length ≤ c.length :=
        List.length_filter_le _ _
      by_cases h2 : (evictExpiredCacheEntries now c).length ≥ maxSize
      · rw [if_pos h2]
        have hne : evictExpiredCacheEntries now c ≠ [] := by
          intro hnil
          rw [hnil] at h2
          simp only [List.length_nil] at h2
          omega
        have hlt := evictOldest_length_lt (maxSize / 10) (by omega)
          (evictExpiredCacheEntries now c) hne
        have := hinsert (evictOldestCacheEntries (maxSize / 10) (evictExpiredCacheEntries now c))
        omega
      · rw [if_neg h2]
        have := hinsert (evictExpiredCacheEntries now c)
        omega
    · rw [if_neg h1]
      have := hinsert c
      omega
  · intro count c x y hnodup hx hy hxdrop hykeep
    exact evictOldest_order count c hnodup x y hx hy hxdrop hykeep

/-- Witness for the amended C6: a full ten-entry cache stays within
bounds after inserting an eleventh key, and on a concrete two-entry
cache the eviction of one entry removes the earlier-expiring one. -/
theorem c6_cache_eviction_witness :
    (setCache 10
        ([("e0", 0, 100), ("e1", 1, 101), ("e2", 2, 102), ("e3", 3, 103), ("e4", 4, 104),
          ("e5", 5, 105), ("e6", 6, 106), ("e7", 7, 107), ("e8", 8, 108), ("e9", 9, 109)]
          : Cache Nat) "new" 99 10 0).length ≤ 10
    ∧ ((50 : ℚ) ≤ 100) :=
  ⟨(c6_cache_eviction Nat).1 10
      [("e0", 0, 100), ("e1", 1, 101), ("e2", 2, 102), ("e3", 3, 103), ("e4", 4, 104),
       ("e5", 5, 105), ("e6", 6, 106), ("e7", 7, 107), ("e8", 8, 108), ("e9", 9, 109)]
      "new" 99 10 0 (by norm_num) (by decide),
   (c6_cache_eviction Nat).2 1 [("a", 1, 50), ("b", 2, 100)] ("a", 1, 50) ("b", 2, 100)
      (by decide) (by decide) (by decide) (by decide) (by decide)⟩

/-! ## Theorems: cache clearing -/

/-- `clear_cache` with a pattern, unfolded. -/
theorem clearCache_some_eq {α : Type} (c : Cache α) (ev : Nat) (p : String → Bool) :
    clearCache c ev (some p)
      = (c.filter (fun e => ! ((c.map (fun e => e.1)).filter p).contains e.1),
         ev + ((c.map (fun e => e.1)).filter p).length, none) := rfl

/-- Claim C7 counterexample: clearing the whole cache (no pattern)
removes both entries, but the call returns `None` — `clear_cache` has no
`return` statement — not the removed count `2` the claim specifies. -/
theorem c7_counterexample :
    (clearCache ([("k1", 1, 100), ("k2", 2, 100)] : Cache Nat) 0 none).1 = []
    ∧ (clearCache ([("k1", 1, 100), ("k2", 2, 100)] : Cache Nat) 0 none).2.2 = none
    ∧ (none : Option Nat) ≠ some 2 := by
  refine ⟨rfl, rfl, by decide⟩

/-- Claim C7 (amended): `clear_cache` removes exactly the entries whose
keys match the pattern — all entries when no pattern is given — and adds
the removed count to the `evictions` statistic, but its return value is
`None`, not the count. -/
theorem c7_clear_cache (α : Type) :
    (∀ (c : Cache α) (ev : Nat), clearCache c ev none = ([], ev + c.length, none))
    ∧ (∀ (c : Cache α) (ev : Nat) (p : String → Bool),
        (∀ e : String × α × ℚ,
          e ∈ (clearCache c ev (some p)).1 ↔ e ∈ c ∧ p e.1 = false)
        ∧ (clearCache c ev (some p)).2.1 = ev + c.countP (fun e => p e.1)
        ∧ (clearCache c ev (some p)).2.2 = none) := by
  constructor
  · intro c ev
    rfl
  · intro c ev p
    refine ⟨?_, ?_, rfl⟩
    · intro e
      rw [clearCache_some_eq]
      constructor
      · intro hmem
        have hec := (List.mem_filter.mp hmem).1
        have hpred : (! ((c.map (fun e => e.1)).filter p).contains e.1) = true :=
          (List.mem_filter.mp hmem).2
        refine ⟨hec, ?_⟩
        cases hp : p e.1 with
        | false => rfl
        | true =>
            exfalso
            have hkey : e.1 ∈ (c.map (fun e => e.1)).filter p :=
              List.mem_filter.mpr ⟨List.mem_map_of_mem _ hec, hp⟩
            have hcc : ((c.map (fun e => e.1)).filter p).contains e.1 = true :=
              List.elem_iff.mpr hkey
            rw [hcc] at hpred
            exact Bool.noConfusion hpred
      · rintro ⟨hec, hp⟩
        refine List.mem_filter.mpr ⟨hec, ?_⟩
        show (! ((c.map (fun e => e.1)).filter p).contains e.1) = true
        cases hcc : ((c.map (fun e => e.1)).filter p).contains e.1 with
        | false => rfl
        | true =>
            exfalso
            have hmemk := List.mem_filter.mp (List.elem_iff.mp hcc)
            rw [hp] at hmemk
            exact Bool.noConfusion hmemk.2
    · rw [clearCache_some_eq]
      show ev + ((c.map (fun e => e.1)).filter p).length = ev + c.countP (fun e => p e.1)
      rw [← List.countP_eq_length_filter, List.countP_map]
      rfl

/-- Witness for the amended C7: a full clear empties a two-entry cache
with the evictions counter advanced by 2 (and returns `None`); a
pattern-based clear keeps the non-matching entry. -/
theorem c7_clear_cache_witness :
    clearCache ([("k1", 1, 100), ("k2", 2, 100)] : Cache Nat) 3 none = ([], 3 + 2, none)
    ∧ (("manifest:a", 5, (100 : ℚ)) ∈
        (clearCache ([("repo:a", 4, 100), ("manifest:a", 5, 100)] : Cache Nat) 0
          (some (fun k => pyStartsWith k "repo:"))).1
        ↔ ("manifest:a", 5, (100 : ℚ)) ∈
            ([("repo:a", 4, 100), ("manifest:a", 5, 100)] : Cache Nat)
          ∧ pyStartsWith "manifest:a" "repo:" = false) :=
  ⟨(c7_clear_cache Nat).1 [("k1", 1, 100), ("k2", 2, 100)] 3,
   ((c7_clear_cache Nat).2 [("repo:a", 4, 100), ("manifest:a", 5, 100)] 0
      (fun k => pyStartsWith k "repo:")).1 ("manifest:a", 5, 100)⟩

/-! ## Theorems: manifest validation and image size -/

/-- Claim C8: a manifest JSON missing `layers` makes `get_manifest`
raise a validation error rather than accept it; for every parsed
manifest the computed total image size is the config size plus the sum
of all layer sizes; in particular layers of sizes 5000 and 3000 with
config size 1234 yield 9234. -/
theorem c8_manifest_validation_and_size (repository tag digest : String) :
    (∀ d : List (String × JVal), jGet d "layers" = none →
        exceptErrCls (getManifestStep repository tag digest d) = some .validation)
    ∧ (∀ m : ManifestV2,
        (parseManifestMetadata m).total_size
          = m.config.size + (m.layers.map ManifestBlob.size).sum)
    ∧ (parseManifestMetadata
        ⟨2, "application/vnd.docker.distribution.manifest.v2+json",
         ⟨"application/vnd.docker.container.image.v1+json", 1234, "sha256:cfg"⟩,
         [⟨"application/vnd.docker.image.rootfs.diff.tar.gzip", 5000, "sha256:l1"⟩,
          ⟨"application/vnd.docker.image.rootfs.diff.tar.gzip", 3000, "sha256:l2"⟩]⟩).total_size
        = 9234 := by
  refine ⟨?_, ?_, by decide⟩
  · intro d h
    have hval : validateManifestData d = false := by
      simp [validateManifestData, jHas, h]
    simp only [getManifestStep, hval, if_pos, exceptErrCls, mkManifestValidationError]
  · intro m
    rfl

/-- Witness for C8: a manifest JSON with `schemaVersion`, `mediaType`
and a complete `config` but no `layers` key is rejected with a
validation error. -/
theorem c8_manifest_validation_and_size_witness :
    exceptErrCls (getManifestStep "library/nginx" "latest" "sha256:d"
        [("schemaVersion", .num 2), ("mediaType", .str "m"),
         ("config", .obj [("mediaType", .str "c"), ("size", .num 1234),
                          ("digest", .str "d0")])])
      = some .validation :=
  (c8_manifest_validation_and_size "library/nginx" "latest" "sha256:d").1
    [("schemaVersion", .num 2), ("mediaType", .str "m"),
     ("config", .obj [("mediaType", .str "c"), ("size", .num 1234), ("digest", .str "d0")])]
    rfl

end RepoVista
